import Mathlib

/-!
Shallow embedding of the acquisitions repository: the users CRUD service
layer, the users controller handlers, and the two security
middleware variants, as found in src/services/users.services.js and the
packed src/middleware/security.middleware.js (which holds the primary
production-gated middleware, an alternate middleware variant, the users
controller, and a Dockerfile, in that order).
-/

/-- Row of the users table, as the Drizzle model stores it: id, name,
email, password hash, role, createdAt, updatedAt. Timestamps are modelled
as naturals. -/
structure User where
  id : Nat
  name : String
  email : String
  password : String
  role : String
  createdAt : Nat
  updatedAt : Nat
deriving Repr, DecidableEq

/-- The user store: the users table as an ordered list of rows. -/
abbrev Store := List User

/-- A JSON object body, modelled as an association list of key and
rendered value. -/
abbrev Row := List (String × String)

/-- Keys of a JSON row. -/
def rowKeys (r : Row) : List String := r.map Prod.fst

/-- The projection used by every select and returning clause of
users.services.js: id, name, email, role, createdAt, updatedAt — the
password column is not listed. -/
def projectUser (u : User) : Row :=
  [("id", toString u.id), ("name", u.name), ("email", u.email),
   ("role", u.role), ("createdAt", toString u.createdAt),
   ("updatedAt", toString u.updatedAt)]

/-- db.select().from(users).where(eq(users.id, id)).limit(1): the first
row whose id matches. -/
def selectById (store : Store) (id : Nat) : Option User :=
  store.find? (fun u => u.id == id)

/-- db.select().from(users).where(eq(users.email, e)).limit(1): the first
row whose email matches. -/
def selectByEmail (store : Store) (e : String) : Option User :=
  store.find? (fun u => u.email == e)

/-- Partial update body after Zod validation: each field is present or
absent, mirroring the JS updates object. -/
structure Updates where
  name : Option String := none
  email : Option String := none
  password : Option String := none
  role : Option String := none
deriving Repr, DecidableEq

/-- JS truthiness of an optional string field: present and not the empty
string. -/
def truthy : Option String → Bool
  | none => false
  | some s => s ≠ ""

/-- The condition guarding the email uniqueness check in updateUser:
updates.email is truthy and differs from the existing email (strict
string comparison). -/
def emailCheckNeeded (updates : Updates) (current : String) : Bool :=
  match updates.email with
  | none => false
  | some e => e ≠ "" && e ≠ current

/-- The row written by db.update(users).set(updateData): updateData is a
spread of the updates object, password replaced by its hash when truthy,
updatedAt always set to the current time. -/
def applyUpdates (updates : Updates) (hash : String → String) (now : Nat)
    (u : User) : User :=
  { u with
    name := updates.name.getD u.name
    email := updates.email.getD u.email
    password :=
      match updates.password with
      | none => u.password
      | some p => if p ≠ "" then hash p else p
    role := updates.role.getD u.role
    updatedAt := now }

/-- A database statement issued by a service call, in order. -/
inductive DbOp
  | selectUser (id : Nat)
  | selectEmail (e : String)
  | writeUpdate (id : Nat)
  | writeDelete (id : Nat)
deriving Repr, DecidableEq

/-- Outcome of one service call: the statements it issued, the store it
leaves behind, and the thrown error message or returned body. -/
structure RunResult where
  trace : List DbOp
  store : Store
  result : Except String Row
deriving Repr

namespace UsersService

/-- getAllUsers of users.services.js: the full table under the
password-free projection. -/
def getAllUsers (store : Store) : List Row :=
  store.map projectUser

/-- getUserById of users.services.js: the projected row, or the thrown
error message User not found. -/
def getUserById (store : Store) (id : Nat) : Except String Row :=
  match selectById store id with
  | none => Except.error "User not found"
  | some u => Except.ok (projectUser u)

/-- updateUser of users.services.js: select the target row, throw User
not found when absent; when a truthy new email differs from the current
one, throw Email already in use if any row holds that email; otherwise
write the update and return the projected updated row. -/
def updateUser (store : Store) (id : Nat) (updates : Updates)
    (hash : String → String) (now : Nat) : RunResult :=
  match selectById store id with
  | none => ⟨[DbOp.selectUser id], store, Except.error "User not found"⟩
  | some existingUser =>
    if emailCheckNeeded updates existingUser.email then
      let e := updates.email.getD ""
      match selectByEmail store e with
      | some _ =>
        ⟨[DbOp.selectUser id, DbOp.selectEmail e], store,
          Except.error "Email already in use"⟩
      | none =>
        ⟨[DbOp.selectUser id, DbOp.selectEmail e, DbOp.writeUpdate id],
          store.map (fun u => if u.id == id then applyUpdates updates hash now u else u),
          Except.ok (projectUser (applyUpdates updates hash now existingUser))⟩
    else
      ⟨[DbOp.selectUser id, DbOp.writeUpdate id],
        store.map (fun u => if u.id == id then applyUpdates updates hash now u else u),
        Except.ok (projectUser (applyUpdates updates hash now existingUser))⟩

/-- deleteUser of users.services.js: select the target row, throw User
not found when absent; otherwise delete it and return the
acknowledgement body with the id and a message. -/
def deleteUser (store : Store) (id : Nat) : RunResult :=
  match selectById store id with
  | none => ⟨[DbOp.selectUser id], store, Except.error "User not found"⟩
  | some _ =>
    ⟨[DbOp.selectUser id, DbOp.writeDelete id],
      store.filter (fun u => u.id != id),
      Except.ok [("id", toString id), ("message", "User deleted successfully")]⟩

end UsersService

/-- The authenticated acting identity req.user, as decoded from the JWT:
its id and role (the email claim is never read by the handlers). -/
structure Actor where
  id : Nat
  role : String
deriving Repr, DecidableEq

/-- Response of a controller handler, after validation succeeded: the
JSON body sent, or the error path taken. passedToErrorHandler is the
next(e) fallthrough to the generic 500 handler. -/
inductive Response
  | ok (body : Row)
  | authRequired
  | forbidden (message : String)
  | notFound
  | emailConflict
  | passedToErrorHandler
deriving Repr, DecidableEq

/-- HTTP status code of a controller response. -/
def Response.status : Response → Nat
  | Response.ok _ => 200
  | Response.authRequired => 401
  | Response.forbidden _ => 403
  | Response.notFound => 404
  | Response.emailConflict => 409
  | Response.passedToErrorHandler => 500

namespace UsersController

/-- Catch block of the updateUser controller: the thrown message User
not found maps to 404, Email already in use to 409, anything else to
next(e). -/
def updateCatch (e : String) : Response :=
  if e = "User not found" then Response.notFound
  else if e = "Email already in use" then Response.emailConflict
  else Response.passedToErrorHandler

/-- Catch block of the deleteUser controller: the thrown message User
not found maps to 404, anything else to next(e). -/
def deleteCatch (e : String) : Response :=
  if e = "User not found" then Response.notFound
  else Response.passedToErrorHandler

/-- updateUser of the users controller (after both Zod validations
passed): 401 with no req.user; 403 unless own profile or admin; 403 when
a truthy role change is requested by a non-admin; then the service call,
its thrown message mapped by the catch block. -/
def updateUser (actor : Option Actor) (id : Nat) (updates : Updates)
    (store : Store) (hash : String → String) (now : Nat) : Response :=
  match actor with
  | none => Response.authRequired
  | some user =>
    let isOwnProfile := user.id == id
    let isAdmin := user.role == "admin"
    if !isOwnProfile && !isAdmin then
      Response.forbidden "You can only update your own profile"
    else if truthy updates.role && !isAdmin then
      Response.forbidden "Only admins can change user roles"
    else
      match (UsersService.updateUser store id updates hash now).result with
      | Except.ok row => Response.ok row
      | Except.error e => updateCatch e

/-- deleteUser of the users controller (after the id validation passed):
401 with no req.user; 403 unless own profile or admin; then the service
call, its thrown message mapped by the catch block. -/
def deleteUser (actor : Option Actor) (id : Nat) (store : Store) : Response :=
  match actor with
  | none => Response.authRequired
  | some user =>
    let isOwnProfile := user.id == id
    let isAdmin := user.role == "admin"
    if !isOwnProfile && !isAdmin then
      Response.forbidden "You can only delete your own profile or be an admin"
    else
      match (UsersService.deleteUser store id).result with
      | Except.ok row => Response.ok row
      | Except.error e => deleteCatch e

end UsersController

/-- True when the second list starts with the first. -/
def startsWithList : List Char → List Char → Bool
  | [], _ => true
  | _ :: _, [] => false
  | n :: ns, h :: t => n == h && startsWithList ns t

/-- Occurrence test over character lists, the semantics of the JS
String.prototype.includes used on the user agent: the needle occurs
somewhere in the haystack. -/
def occursIn (needle : List Char) : List Char → Bool
  | [] => startsWithList needle []
  | h :: t => startsWithList needle (h :: t) || occursIn needle t

/-- ASCII lowercasing of a string, character by character, the effect of
the JS toLowerCase on the strings involved. -/
def lowerChars (s : String) : List Char :=
  s.data.map Char.toLower

/-- The whitelisted developer-tool user agent signatures of the primary
security middleware. -/
def whitelistedUserAgents : List String :=
  ["PostmanRuntime", "insomnia", "Thunder Client", "HTTPie", "curl",
   "axios", "node-fetch"]

/-- Case-insensitive whitelist test of the primary security middleware:
some signature occurs in the lowercased user agent. -/
def isWhitelisted (userAgent : String) : Bool :=
  whitelistedUserAgents.any (fun agent =>
    occursIn (lowerChars agent) (lowerChars userAgent))

/-- The acting role seen by the middleware: req.user?.role || guest, so
a missing user, a missing role or a falsy role string all read guest. -/
def roleOf (role? : Option String) : String :=
  match role? with
  | none => "guest"
  | some r => if r = "" then "guest" else r

/-- Per-minute ceiling of the middleware switch: admin 20, user 10,
guest 5, and 5 for every other role. -/
def limitFor (role : String) : Nat :=
  if role = "admin" then 20
  else if role = "user" then 10
  else if role = "guest" then 5
  else 5

/-- Role-specific rate-limit message of the middleware switch. -/
def messageFor (role : String) : String :=
  if role = "admin" then "Admin request limit exceeded (20 per minute). Slow down!"
  else if role = "user" then "User request limit exceeded (10 per minute). Slow down!"
  else if role = "guest" then "Guest request limit exceeded (5 per minute). Slow down!"
  else "Request limit exceeded. Slow down!"

/-- The sliding window rule handed to the decision service: a one-minute
interval, the role ceiling as max, and a role-named rule. -/
structure RuleConfig where
  interval : String
  max : Nat
  name : String
deriving Repr, DecidableEq

/-- The rule the middleware builds for a role. -/
def ruleFor (role : String) : RuleConfig :=
  ⟨"1m", limitFor role, role ++ "-rate-limit"⟩

/-- Denial reason flags of an external decision. -/
structure DenialReason where
  isBot : Bool
  isShield : Bool
  isRateLimit : Bool
deriving Repr, DecidableEq

/-- Outcome of the awaited client.protect call: an allowing decision, a
denying decision with its reason flags, or a thrown error. -/
inductive Decision
  | allowed
  | denied (reason : DenialReason)
  | errored
deriving Repr, DecidableEq

/-- What the middleware does with the request: pass it on with next(),
or answer 403, 429 or 500 itself. -/
inductive GateResult
  | next
  | forbidden (message : String)
  | tooManyRequests (message : String)
  | internalError (message : String)
deriving Repr, DecidableEq

/-- The primary security middleware (first variant of the packed
middleware file): bypass with next() whenever NODE_ENV is not
production; bypass whitelisted user agents; otherwise consult the
decision service with the role rule and answer 403 for bot, 403 for
shield, 429 with the role message for rate limit, and next() for a
denial with none of those flags, for an allowing decision, and — the
catch block — for a thrown decision-service error (fail-open). -/
def securityMiddleware (nodeEnv userAgent : String) (role? : Option String)
    (protect : RuleConfig → Decision) : GateResult :=
  if nodeEnv ≠ "production" then GateResult.next
  else if isWhitelisted userAgent then GateResult.next
  else
    let role := roleOf role?
    match protect (ruleFor role) with
    | Decision.errored => GateResult.next
    | Decision.allowed => GateResult.next
    | Decision.denied reason =>
      if reason.isBot then GateResult.forbidden "Automated requests are not allowed"
      else if reason.isShield then GateResult.forbidden "Request blocked by security policy"
      else if reason.isRateLimit then GateResult.tooManyRequests (messageFor role)
      else GateResult.next

/-- The alternate security middleware (second variant of the packed
middleware file). Its body never reads NODE_ENV — the parameter is
carried to show every deployment mode takes the same path — and it has
no user-agent whitelist; a denial answers 403 for bot, 403 for shield
and 429 with the fixed text Too many requests for rate limit, and a
thrown decision-service error answers 500 (fail-closed). -/
def securityMiddlewareAlt (nodeEnv : String) (role? : Option String)
    (protect : RuleConfig → Decision) : GateResult :=
  let _ := nodeEnv
  let role := roleOf role?
  match protect (ruleFor role) with
  | Decision.errored =>
    GateResult.internalError "Something went wrong with security middleware"
  | Decision.allowed => GateResult.next
  | Decision.denied reason =>
    if reason.isBot then GateResult.forbidden "Automated requests are not allowed"
    else if reason.isShield then GateResult.forbidden "Request blocked by security policy"
    else if reason.isRateLimit then GateResult.tooManyRequests "Too many requests"
    else GateResult.next

/-- Helper: a lookup on an empty store misses, and a one-field update of
an existing row returns the refreshed projection — two sanity checks of
the embedding on concrete inputs. -/
theorem service_sanity :
    UsersService.getUserById [] 1 = Except.error "User not found" ∧
    (UsersService.updateUser [⟨1, "A", "a@x", "h", "user", 0, 0⟩] 1
      { name := some "B" } (fun s => s) 9).result =
    Except.ok (projectUser ⟨1, "B", "a@x", "h", "user", 0, 9⟩) :=
  ⟨rfl, rfl⟩

/-- Helper: the password key never appears among the keys of the
projection used by the select and returning clauses. -/
theorem password_not_in_projectUser (u : User) :
    "password" ∉ rowKeys (projectUser u) := by
  have h : rowKeys (projectUser u) =
      ["id", "name", "email", "role", "createdAt", "updatedAt"] := rfl
  rw [h]
  decide

/-- Claim C3 (amended): in the primary middleware variant, any
deployment mode other than production bypasses every check and calls
next(); the alternate middleware variant never reads the deployment
mode, so it applies its classification identically in every mode. -/
theorem c3_nonproduction_noop (nodeEnv userAgent : String)
    (role? : Option String) (protect : RuleConfig → Decision)
    (h : nodeEnv ≠ "production") :
    securityMiddleware nodeEnv userAgent role? protect = GateResult.next ∧
    ∀ otherEnv : String,
      securityMiddlewareAlt nodeEnv role? protect =
        securityMiddlewareAlt otherEnv role? protect := by
  refine ⟨?_, fun _ => rfl⟩
  simp [securityMiddleware, h]

/-- Claim C3 witness: the primary middleware in development mode passes
a request straight through. -/
theorem c3_witness :
    securityMiddleware "development" "Mozilla/5.0" none
      (fun _ => Decision.allowed) = GateResult.next ∧
    ∀ otherEnv : String,
      securityMiddlewareAlt "development" none (fun _ => Decision.allowed) =
        securityMiddlewareAlt otherEnv none (fun _ => Decision.allowed) :=
  c3_nonproduction_noop "development" "Mozilla/5.0" none
    (fun _ => Decision.allowed) (by decide)

/-- Claim C3 counterexample: the alternate middleware variant, in
development mode, still answers 429 to a rate-limit denial, so the gate
is not a no-op outside production. -/
theorem c3_counterexample :
    securityMiddlewareAlt "development" none
      (fun _ => Decision.denied ⟨false, false, true⟩) =
      GateResult.tooManyRequests "Too many requests" ∧
    securityMiddlewareAlt "development" none
      (fun _ => Decision.denied ⟨false, false, true⟩) ≠ GateResult.next :=
  ⟨rfl, by decide⟩

/-- Claim C2 (amended): when the decision service call throws, the
primary middleware variant logs and calls next() (fail-open) and never
answers a blocking status, while the alternate variant answers 500
Internal Server Error (fail-closed). -/
theorem c2_failopen_primary_failclosed_alt (nodeEnv userAgent : String)
    (role? : Option String) (protect : RuleConfig → Decision)
    (herr : ∀ r, protect r = Decision.errored) :
    securityMiddleware nodeEnv userAgent role? protect = GateResult.next ∧
    securityMiddlewareAlt nodeEnv role? protect =
      GateResult.internalError "Something went wrong with security middleware" := by
  constructor
  · simp [securityMiddleware, herr]
  · simp [securityMiddlewareAlt, herr]

/-- Claim C2 witness: a throwing decision service in production with a
plain browser user agent. -/
theorem c2_witness :
    securityMiddleware "production" "Mozilla/5.0" (some "user")
      (fun _ => Decision.errored) = GateResult.next ∧
    securityMiddlewareAlt "production" (some "user")
      (fun _ => Decision.errored) =
      GateResult.internalError "Something went wrong with security middleware" :=
  c2_failopen_primary_failclosed_alt "production" "Mozilla/5.0" (some "user")
    (fun _ => Decision.errored) (fun _ => rfl)

/-- Claim C2 counterexample: the alternate middleware variant answers a
blocking 500 on a decision-service error instead of passing the request
on, refuting the claim that the gate never blocks on its own internal
error. -/
theorem c2_counterexample :
    securityMiddlewareAlt "production" (some "user")
      (fun _ => Decision.errored) =
      GateResult.internalError "Something went wrong with security middleware" ∧
    securityMiddlewareAlt "production" (some "user")
      (fun _ => Decision.errored) ≠ GateResult.next :=
  ⟨rfl, by decide⟩

/-- Claim C9: in the production path of the primary middleware, a denial
whose reason is none of bot, shield or rate limit falls through every
branch and the request proceeds with next(). -/
theorem c9_unhandled_denial_falls_through (userAgent : String)
    (role? : Option String) (protect : RuleConfig → Decision)
    (reason : DenialReason)
    (hwl : isWhitelisted userAgent = false)
    (hden : protect (ruleFor (roleOf role?)) = Decision.denied reason)
    (hb : reason.isBot = false) (hs : reason.isShield = false)
    (hr : reason.isRateLimit = false) :
    securityMiddleware "production" userAgent role? protect = GateResult.next := by
  simp [securityMiddleware, hwl, hden, hb, hs, hr]

/-- Claim C9 witness: a concrete denial with no reason flags set is let
through. -/
theorem c9_witness :
    securityMiddleware "production" "Mozilla/5.0" (some "user")
      (fun _ => Decision.denied ⟨false, false, false⟩) = GateResult.next :=
  c9_unhandled_denial_falls_through "Mozilla/5.0" (some "user")
    (fun _ => Decision.denied ⟨false, false, false⟩)
    ⟨false, false, false⟩ (by decide) rfl rfl rfl rfl

/-- Claim C7 (amended): both middleware variants select the per-minute
ceiling by role as guest 5, user 10, admin 20, with every other role
falling back to 5, and a rate-limit denial answers 429; the primary
variant's 429 body carries the role-specific message, while the
alternate variant's 429 body carries the fixed text Too many requests
instead of a role-specific one. -/
theorem c7_ceilings_and_messages :
    (limitFor "guest" = 5 ∧ limitFor "user" = 10 ∧ limitFor "admin" = 20) ∧
    (∀ role : String, role ≠ "guest" → role ≠ "user" → role ≠ "admin" →
      limitFor role = 5) ∧
    (∀ role : String, (ruleFor role).max = limitFor role) ∧
    (∀ (userAgent : String) (role? : Option String)
      (protect : RuleConfig → Decision) (reason : DenialReason),
      isWhitelisted userAgent = false →
      protect (ruleFor (roleOf role?)) = Decision.denied reason →
      reason.isBot = false → reason.isShield = false →
      reason.isRateLimit = true →
      securityMiddleware "production" userAgent role? protect =
        GateResult.tooManyRequests (messageFor (roleOf role?))) ∧
    (∀ (nodeEnv : String) (role? : Option String)
      (protect : RuleConfig → Decision) (reason : DenialReason),
      protect (ruleFor (roleOf role?)) = Decision.denied reason →
      reason.isBot = false → reason.isShield = false →
      reason.isRateLimit = true →
      securityMiddlewareAlt nodeEnv role? protect =
        GateResult.tooManyRequests "Too many requests") := by
  refine ⟨by decide, ?_, fun role => rfl, ?_, ?_⟩
  · intro role h1 h2 h3
    simp [limitFor, h1, h2, h3]
  · intro userAgent role? protect reason hwl hden hb hs hr
    simp [securityMiddleware, hwl, hden, hb, hs, hr]
  · intro nodeEnv role? protect reason hden hb hs hr
    simp [securityMiddlewareAlt, hden, hb, hs, hr]

/-- Claim C7 counterexample: a guest request denied for rate limiting by
the alternate middleware variant is answered 429 with the fixed text Too
many requests, which is not the role-specific guest message. -/
theorem c7_counterexample :
    securityMiddlewareAlt "production" none
      (fun _ => Decision.denied ⟨false, false, true⟩) =
      GateResult.tooManyRequests "Too many requests" ∧
    "Too many requests" ≠ messageFor (roleOf none) :=
  ⟨rfl, by decide⟩

/-- Helper: the updateUser catch block never produces a 403 response. -/
theorem updateCatch_ne_forbidden (e msg : String) :
    UsersController.updateCatch e ≠ Response.forbidden msg := by
  unfold UsersController.updateCatch
  split_ifs <;> simp

/-- Helper: the deleteUser catch block never produces a 403 response. -/
theorem deleteCatch_ne_forbidden (e msg : String) :
    UsersController.deleteCatch e ≠ Response.forbidden msg := by
  unfold UsersController.deleteCatch
  split_ifs <;> simp

/-- Claim C5: for both update and delete, an authenticated actor who is
neither the target owner nor an admin is denied with the 403 ownership
message, and an actor who is the owner or an admin never receives that
ownership denial (delete has no further role-change sub-case). -/
theorem c5_ownership_or_admin (actor : Actor) (id : Nat) (updates : Updates)
    (store : Store) (hash : String → String) (now : Nat) :
    (actor.id ≠ id → actor.role ≠ "admin" →
      UsersController.updateUser (some actor) id updates store hash now =
        Response.forbidden "You can only update your own profile" ∧
      UsersController.deleteUser (some actor) id store =
        Response.forbidden "You can only delete your own profile or be an admin") ∧
    ((actor.id = id ∨ actor.role = "admin") →
      UsersController.updateUser (some actor) id updates store hash now ≠
        Response.forbidden "You can only update your own profile" ∧
      UsersController.deleteUser (some actor) id store ≠
        Response.forbidden "You can only delete your own profile or be an admin") := by
  constructor
  · intro hne hna
    constructor
    · simp [UsersController.updateUser, hne, hna]
    · simp [UsersController.deleteUser, hne, hna]
  · intro hacc
    rcases hacc with h | h
    · subst h
      constructor
      · simp only [UsersController.updateUser, beq_self_eq_true, Bool.not_true,
          Bool.false_and, Bool.false_eq_true, if_false]
        split
        · simp
        · split
          · simp
          · exact updateCatch_ne_forbidden _ _
      · simp only [UsersController.deleteUser, beq_self_eq_true, Bool.not_true,
          Bool.false_and, Bool.false_eq_true, if_false]
        split
        · simp
        · exact deleteCatch_ne_forbidden _ _
    · constructor
      · simp only [UsersController.updateUser, h, beq_self_eq_true, Bool.not_true,
          Bool.and_false, Bool.false_eq_true, if_false]
        split
        · simp
        · exact updateCatch_ne_forbidden _ _
      · simp only [UsersController.deleteUser, h, beq_self_eq_true, Bool.not_true,
          Bool.and_false, Bool.false_eq_true, if_false]
        split
        · simp
        · exact deleteCatch_ne_forbidden _ _

/-- Claim C1 (amended): an update or delete on a nonexistent target id
fails 404 NotFound for every actor who passes the handler's access
checks — the owner of the requested id or an admin, and for update not
a non-admin requesting a role change; an actor failing those checks is
answered 403 before the existence of the id is ever consulted. -/
theorem c1_missing_id_not_found (actor : Actor) (id : Nat)
    (updates : Updates) (store : Store) (hash : String → String) (now : Nat)
    (hacc : actor.id = id ∨ actor.role = "admin")
    (hrole : truthy updates.role = true → actor.role = "admin")
    (habs : selectById store id = none) :
    UsersController.updateUser (some actor) id updates store hash now =
      Response.notFound ∧
    UsersController.deleteUser (some actor) id store = Response.notFound := by
  have hres : (UsersService.updateUser store id updates hash now).result =
      Except.error "User not found" := by
    simp [UsersService.updateUser, habs]
  have hdel : (UsersService.deleteUser store id).result =
      Except.error "User not found" := by
    simp [UsersService.deleteUser, habs]
  rcases hacc with h | h
  · subst h
    by_cases hr : truthy updates.role = true
    · have hadmin := hrole hr
      refine ⟨?_, ?_⟩
      · simp [UsersController.updateUser, hadmin, hres, UsersController.updateCatch]
      · simp [UsersController.deleteUser, hadmin, hdel, UsersController.deleteCatch]
    · refine ⟨?_, ?_⟩
      · simp [UsersController.updateUser, hr, hres, UsersController.updateCatch]
      · simp [UsersController.deleteUser, hdel, UsersController.deleteCatch]
  · refine ⟨?_, ?_⟩
    · simp [UsersController.updateUser, h, hres, UsersController.updateCatch]
    · simp [UsersController.deleteUser, h, hdel, UsersController.deleteCatch]

/-- Claim C1 witness: the owner of a nonexistent id 5 gets 404 from both
handlers. -/
theorem c1_witness :
    UsersController.updateUser (some ⟨5, "user"⟩) 5 {} [] (fun s => s) 0 =
      Response.notFound ∧
    UsersController.deleteUser (some ⟨5, "user"⟩) 5 [] = Response.notFound :=
  c1_missing_id_not_found ⟨5, "user"⟩ 5 {} [] (fun s => s) 0
    (Or.inl rfl) (by decide) rfl

/-- Claim C1 counterexample: a non-admin actor of id 1 targeting the
nonexistent id 2 in an empty store is answered 403 Forbidden, not 404,
by both handlers, so the claim as stated fails. -/
theorem c1_counterexample :
    UsersController.updateUser (some ⟨1, "user"⟩) 2 {} [] (fun s => s) 0 =
      Response.forbidden "You can only update your own profile" ∧
    UsersController.deleteUser (some ⟨1, "user"⟩) 2 [] =
      Response.forbidden "You can only delete your own profile or be an admin" ∧
    UsersController.updateUser (some ⟨1, "user"⟩) 2 {} [] (fun s => s) 0 ≠
      Response.notFound ∧
    UsersController.deleteUser (some ⟨1, "user"⟩) 2 [] ≠ Response.notFound := by
  refine ⟨rfl, rfl, by decide, by decide⟩

/-- Claim C4: a request whose changes include a truthy role change by a
non-admin actor is answered 403 whatever the target (the own-profile
case included), while an admin acting on another record of the store may
change that record's role, shown on a concrete store. -/
theorem c4_role_change_requires_admin (actor : Actor) (id : Nat)
    (updates : Updates) (store : Store) (hash : String → String) (now : Nat)
    (hchange : truthy updates.role = true)
    (hnotadmin : actor.role ≠ "admin") :
    (UsersController.updateUser (some actor) id updates store hash now).status = 403 ∧
    UsersController.updateUser (some ⟨1, "admin"⟩) 2 ⟨none, none, none, some "admin"⟩
        [⟨2, "Bob", "bob@x", "h", "user", 0, 0⟩] (fun s => s) 7 =
      Response.ok (projectUser ⟨2, "Bob", "bob@x", "h", "admin", 0, 7⟩) := by
  refine ⟨?_, rfl⟩
  by_cases hown : actor.id = id
  · subst hown
    simp [UsersController.updateUser, hchange, hnotadmin, Response.status]
  · simp [UsersController.updateUser, hown, hnotadmin, Response.status]

/-- Claim C4 witness: a user-role actor asking for a role change on
their own id is answered 403, and the admin instance holds. -/
theorem c4_witness :
    (UsersController.updateUser (some ⟨3, "user"⟩) 3
      ⟨none, none, none, some "user"⟩ [] (fun s => s) 0).status = 403 ∧
    UsersController.updateUser (some ⟨1, "admin"⟩) 2 ⟨none, none, none, some "admin"⟩
        [⟨2, "Bob", "bob@x", "h", "user", 0, 0⟩] (fun s => s) 7 =
      Response.ok (projectUser ⟨2, "Bob", "bob@x", "h", "admin", 0, 7⟩) :=
  c4_role_change_requires_admin ⟨3, "user"⟩ 3 ⟨none, none, none, some "user"⟩
    [] (fun s => s) 0 (by decide) (by decide)

/-- Helper: the updateUser catch block maps the message Email already in
use to the 409 response. -/
theorem updateCatch_email_conflict :
    UsersController.updateCatch "Email already in use" = Response.emailConflict := by
  decide

/-- Claim C6: when a truthy updated email differs from the target's
current email and some record of the store already holds it, the update
fails Email already in use; when the supplied email equals the current
one the conflict check is skipped and that failure cannot arise; and
through the handler the conflict surfaces as 409 for every acting
identity that passes the access checks, admin included. -/
theorem c6_email_conflict (store : Store) (id : Nat) (updates : Updates)
    (hash : String → String) (now : Nat) (u other : User) (e : String)
    (hfind : selectById store id = some u)
    (hemail : updates.email = some e)
    (hne : e ≠ "")
    (hdiff : e ≠ u.email)
    (hother : other ∈ store)
    (hoe : other.email = e) :
    (UsersService.updateUser store id updates hash now).result =
      Except.error "Email already in use" ∧
    (∀ (store₂ : Store) (id₂ : Nat) (updates₂ : Updates) (v : User),
      selectById store₂ id₂ = some v → updates₂.email = some v.email →
      (UsersService.updateUser store₂ id₂ updates₂ hash now).result ≠
        Except.error "Email already in use") ∧
    (∀ actor : Actor, (actor.id = id ∨ actor.role = "admin") →
      (truthy updates.role = true → actor.role = "admin") →
      UsersController.updateUser (some actor) id updates store hash now =
        Response.emailConflict) := by
  have hcheck : emailCheckNeeded updates u.email = true := by
    simp [emailCheckNeeded, hemail, hne, hdiff]
  have hmail : ∃ w, selectByEmail store e = some w := by
    cases hsel : selectByEmail store e with
    | some w => exact ⟨w, rfl⟩
    | none =>
      rw [selectByEmail, List.find?_eq_none] at hsel
      have hx := hsel other hother
      simp [hoe] at hx
  obtain ⟨w, hw⟩ := hmail
  have h1 : (UsersService.updateUser store id updates hash now).result =
      Except.error "Email already in use" := by
    simp [UsersService.updateUser, hfind, hcheck, hemail, hw]
  refine ⟨h1, ?_, ?_⟩
  · intro store₂ id₂ updates₂ v hfind₂ hemail₂
    have hcheck₂ : emailCheckNeeded updates₂ v.email = false := by
      simp [emailCheckNeeded, hemail₂]
    simp [UsersService.updateUser, hfind₂, hcheck₂]
  · intro actor hacc hrole
    rcases hacc with h | h
    · subst h
      by_cases hr : truthy updates.role = true
      · have hadmin := hrole hr
        simp [UsersController.updateUser, hadmin, h1, updateCatch_email_conflict]
      · simp [UsersController.updateUser, hr, h1, updateCatch_email_conflict]
    · simp [UsersController.updateUser, h, h1, updateCatch_email_conflict]

/-- Claim C6 witness: updating user 1 to the email already held by user
2 fails with the conflict, and the handler answers 409 to the admin of
id 9. -/
theorem c6_witness :
    (UsersService.updateUser
      [⟨1, "A", "a@x", "h", "user", 0, 0⟩, ⟨2, "B", "b@x", "h", "user", 0, 0⟩]
      1 ⟨none, some "b@x", none, none⟩ (fun s => s) 3).result =
      Except.error "Email already in use" ∧
    (∀ (store₂ : Store) (id₂ : Nat) (updates₂ : Updates) (v : User),
      selectById store₂ id₂ = some v → updates₂.email = some v.email →
      (UsersService.updateUser store₂ id₂ updates₂ (fun s => s) 3).result ≠
        Except.error "Email already in use") ∧
    (∀ actor : Actor, (actor.id = 1 ∨ actor.role = "admin") →
      (truthy (Updates.mk none (some "b@x") none none).role = true →
        actor.role = "admin") →
      UsersController.updateUser (some actor) 1 ⟨none, some "b@x", none, none⟩
        [⟨1, "A", "a@x", "h", "user", 0, 0⟩, ⟨2, "B", "b@x", "h", "user", 0, 0⟩]
        (fun s => s) 3 = Response.emailConflict) :=
  c6_email_conflict
    [⟨1, "A", "a@x", "h", "user", 0, 0⟩, ⟨2, "B", "b@x", "h", "user", 0, 0⟩]
    1 ⟨none, some "b@x", none, none⟩ (fun s => s) 3
    ⟨1, "A", "a@x", "h", "user", 0, 0⟩ ⟨2, "B", "b@x", "h", "user", 0, 0⟩
    "b@x" rfl rfl (by decide) (by decide) (by decide) rfl

/-- Claim C8: no operation of the user store puts a password key in a
returned body: every row of getAllUsers, every successful getUserById,
updateUser and deleteUser body is free of it. -/
theorem c8_no_password_field (store : Store) (id : Nat) (updates : Updates)
    (hash : String → String) (now : Nat) :
    (∀ row ∈ UsersService.getAllUsers store, "password" ∉ rowKeys row) ∧
    (∀ row : Row, UsersService.getUserById store id = Except.ok row →
      "password" ∉ rowKeys row) ∧
    (∀ row : Row, (UsersService.updateUser store id updates hash now).result =
      Except.ok row → "password" ∉ rowKeys row) ∧
    (∀ row : Row, (UsersService.deleteUser store id).result = Except.ok row →
      "password" ∉ rowKeys row) := by
  refine ⟨?_, ?_, ?_, ?_⟩
  · intro row hrow
    rw [UsersService.getAllUsers] at hrow
    obtain ⟨u, _, rfl⟩ := List.mem_map.mp hrow
    exact password_not_in_projectUser u
  · intro row hrow
    rcases hfind : selectById store id with _ | u
    · simp [UsersService.getUserById, hfind] at hrow
    · simp [UsersService.getUserById, hfind] at hrow
      subst hrow
      exact password_not_in_projectUser u
  · intro row hrow
    rcases hfind : selectById store id with _ | u
    · simp [UsersService.updateUser, hfind] at hrow
    · by_cases hcheck : emailCheckNeeded updates u.email = true
      · rcases hmail : selectByEmail store (updates.email.getD "") with _ | w
        · simp [UsersService.updateUser, hfind, hcheck, hmail] at hrow
          subst hrow
          exact password_not_in_projectUser _
        · simp [UsersService.updateUser, hfind, hcheck, hmail] at hrow
      · simp [UsersService.updateUser, hfind, hcheck] at hrow
        subst hrow
        exact password_not_in_projectUser _
  · intro row hrow
    rcases hfind : selectById store id with _ | u
    · simp [UsersService.deleteUser, hfind] at hrow
    · simp [UsersService.deleteUser, hfind] at hrow
      subst hrow
      have hk : rowKeys [("id", toString id),
          ("message", "User deleted successfully")] = ["id", "message"] := rfl
      rw [hk]
      decide

/-- Claim C10: whenever updateUser fails, the failure is raised before
the write statement: the store it leaves is the input store and its
trace holds no write. -/
theorem c10_update_fails_before_write (store : Store) (id : Nat)
    (updates : Updates) (hash : String → String) (now : Nat) (e : String)
    (herr : (UsersService.updateUser store id updates hash now).result =
      Except.error e) :
    (UsersService.updateUser store id updates hash now).store = store ∧
    DbOp.writeUpdate id ∉ (UsersService.updateUser store id updates hash now).trace := by
  rcases hfind : selectById store id with _ | u
  · simp [UsersService.updateUser, hfind]
  · by_cases hcheck : emailCheckNeeded updates u.email = true
    · rcases hmail : selectByEmail store (updates.email.getD "") with _ | w
      · exfalso
        simp [UsersService.updateUser, hfind, hcheck, hmail] at herr
      · simp [UsersService.updateUser, hfind, hcheck, hmail]
    · exfalso
      simp [UsersService.updateUser, hfind, hcheck] at herr

/-- Claim C10 witness: a failing update on an empty store leaves the
store empty and issues no write. -/
theorem c10_witness :
    (UsersService.updateUser [] 1 {} (fun s => s) 0).store = ([] : Store) ∧
    DbOp.writeUpdate 1 ∉ (UsersService.updateUser [] 1 {} (fun s => s) 0).trace :=
  c10_update_fails_before_write [] 1 {} (fun s => s) 0 "User not found" rfl
